import Mathlib

/-!
Verification of the job-application-assistant pipeline
(`src/project1_job_application_assistant.py`).

The program chains three single-shot text-generation tasks: job-description
extraction (parsed against the `JobDetails` schema), resume-gap analysis
(parsed against the `ResumeSuggestions` schema) and cover-letter drafting
(raw text passthrough).  The external generation service is modelled as a
function from a temperature and a prompt to either raw text or a service
fault; the JSON-text decoding step (the `json.loads` stage of the library's
output parser) is modelled as an abstract decoder from text to JSON values,
while the schema-validation stage (the pydantic field checks declared in the
source) is modelled completely.
-/

/-- JSON values, the decoded form of the model's text response.  A
well-formed JSON text is represented by its decoded value. -/
inductive Json where
  | str (s : String)
  | int (n : Int)
  | bool (b : Bool)
  | null
  | arr (items : List Json)
  | obj (fields : List (String × Json))

/-- `JobDetails` record (source lines 24-30): all five fields mandatory. -/
structure JobDetails where
  job_title : String
  required_skills : List String
  experience_required : Int
  tools : List String
  soft_skills : List String
deriving Repr, DecidableEq

/-- `ResumeSuggestions` record (source lines 33-37): all three fields
mandatory. -/
structure ResumeSuggestions where
  missing_skills : List String
  improvement_points : List String
  overall_fit_summary : String
deriving Repr, DecidableEq

/-- The two error kinds of the design: a service fault and a
parse/validation failure. -/
inductive AppError where
  | generationError (msg : String)
  | parseValidationError (msg : String)
deriving Repr, DecidableEq

/-- Field of type `str`: present and a JSON string. -/
def reqStr (fields : List (String × Json)) (k : String) : Except String String :=
  match fields.lookup k with
  | some (Json.str s) => Except.ok s
  | some _ => Except.error (k ++ ": expected a string")
  | none => Except.error (k ++ ": field required")

/-- Field of type `int`: present and a JSON integer. -/
def reqInt (fields : List (String × Json)) (k : String) : Except String Int :=
  match fields.lookup k with
  | some (Json.int n) => Except.ok n
  | some _ => Except.error (k ++ ": expected an integer")
  | none => Except.error (k ++ ": field required")

/-- Every item of the array must be a JSON string. -/
def strItems : List Json → Except String (List String)
  | [] => Except.ok []
  | Json.str s :: rest => (strItems rest).map (fun l => s :: l)
  | _ :: _ => Except.error "expected a string item"

/-- Field of type `List[str]`: present and an array of JSON strings. -/
def reqStrList (fields : List (String × Json)) (k : String) :
    Except String (List String) :=
  match fields.lookup k with
  | some (Json.arr xs) => strItems xs
  | some _ => Except.error (k ++ ": expected an array of strings")
  | none => Except.error (k ++ ": field required")

/-- Schema validation of a decoded JSON value against `JobDetails`
(the five field declarations of source lines 26-30). -/
def validateJobDetails : Json → Except String JobDetails
  | Json.obj fields => do
    let jt ← reqStr fields "job_title"
    let rs ← reqStrList fields "required_skills"
    let er ← reqInt fields "experience_required"
    let ts ← reqStrList fields "tools"
    let ss ← reqStrList fields "soft_skills"
    pure ⟨jt, rs, er, ts, ss⟩
  | _ => Except.error "response is not a JSON object"

/-- Schema validation of a decoded JSON value against `ResumeSuggestions`
(the three field declarations of source lines 35-37). -/
def validateResumeSuggestions : Json → Except String ResumeSuggestions
  | Json.obj fields => do
    let ms ← reqStrList fields "missing_skills"
    let ip ← reqStrList fields "improvement_points"
    let os ← reqStr fields "overall_fit_summary"
    pure ⟨ms, ip, os⟩
  | _ => Except.error "response is not a JSON object"

/-- The job-description response parse: a schema-validation failure is
surfaced as a `ParseValidationError`. -/
def parseJobResponse (v : Json) : Except AppError JobDetails :=
  (validateJobDetails v).mapError AppError.parseValidationError

/-- The resume-suggestion response parse. -/
def parseSuggestionResponse (v : Json) : Except AppError ResumeSuggestions :=
  (validateResumeSuggestions v).mapError AppError.parseValidationError

/-- Discriminator: did the computation fail with a `ParseValidationError`? -/
def isParseFailure {α : Type} : Except AppError α → Bool
  | Except.error (AppError.parseValidationError _) => true
  | _ => false

/-- `strItems` on an array built from strings recovers exactly those
strings. -/
lemma strItems_map (l : List String) :
    strItems (l.map Json.str) = Except.ok l := by
  induction l with
  | nil => rfl
  | cons s rest ih => simp [strItems, ih, Except.map]

/-- Characterization: the `JobDetails` validation succeeds exactly when each
of the five mandatory fields validates, and the record carries those field
values. -/
lemma validateJobDetails_ok_iff (fields : List (String × Json))
    (jd : JobDetails) :
    validateJobDetails (Json.obj fields) = Except.ok jd ↔
      reqStr fields "job_title" = Except.ok jd.job_title ∧
      reqStrList fields "required_skills" = Except.ok jd.required_skills ∧
      reqInt fields "experience_required" = Except.ok jd.experience_required ∧
      reqStrList fields "tools" = Except.ok jd.tools ∧
      reqStrList fields "soft_skills" = Except.ok jd.soft_skills := by
  obtain ⟨jt, rs, er, ts, ss⟩ := jd
  cases h1 : reqStr fields "job_title" <;>
    cases h2 : reqStrList fields "required_skills" <;>
      cases h3 : reqInt fields "experience_required" <;>
        cases h4 : reqStrList fields "tools" <;>
          cases h5 : reqStrList fields "soft_skills" <;>
            simp [validateJobDetails, h1, h2, h3, h4, h5, Bind.bind,
              Except.bind, JobDetails.mk.injEq, pure, Except.pure, and_assoc]

/-- A valid object whose declared fields decode to the given values parses
to exactly the record of those values (shared by the round-trip claims). -/
lemma parseJobResponse_roundTrip (fields : List (String × Json))
    (jt : String) (rs : List String) (er : Int) (ts ss : List String)
    (h1 : fields.lookup "job_title" = some (Json.str jt))
    (h2 : fields.lookup "required_skills" = some (Json.arr (rs.map Json.str)))
    (h3 : fields.lookup "experience_required" = some (Json.int er))
    (h4 : fields.lookup "tools" = some (Json.arr (ts.map Json.str)))
    (h5 : fields.lookup "soft_skills" = some (Json.arr (ss.map Json.str))) :
    parseJobResponse (Json.obj fields) = Except.ok ⟨jt, rs, er, ts, ss⟩ := by
  have hv : validateJobDetails (Json.obj fields) =
      Except.ok ⟨jt, rs, er, ts, ss⟩ := by
    rw [validateJobDetails_ok_iff]
    refine ⟨?_, ?_, ?_, ?_, ?_⟩ <;>
      simp [reqStr, reqStrList, reqInt, h1, h2, h3, h4, h5, strItems_map]
  simp [parseJobResponse, hv, Except.mapError]

/-- C1: for every decoded JSON object carrying the five mandatory
`JobDetails` fields with their declared types, the job-description response
parse succeeds and returns the record of exactly those values (round-trip). -/
theorem job_parse_roundTrip (fields : List (String × Json))
    (jt : String) (rs : List String) (er : Int) (ts ss : List String)
    (h1 : fields.lookup "job_title" = some (Json.str jt))
    (h2 : fields.lookup "required_skills" = some (Json.arr (rs.map Json.str)))
    (h3 : fields.lookup "experience_required" = some (Json.int er))
    (h4 : fields.lookup "tools" = some (Json.arr (ts.map Json.str)))
    (h5 : fields.lookup "soft_skills" = some (Json.arr (ss.map Json.str))) :
    parseJobResponse (Json.obj fields) = Except.ok ⟨jt, rs, er, ts, ss⟩ :=
  parseJobResponse_roundTrip fields jt rs er ts ss h1 h2 h3 h4 h5

/-- Witness for C1 at a concrete five-field object. -/
theorem job_parse_roundTrip_witness :
    parseJobResponse (Json.obj
      [("job_title", Json.str "Dev"),
       ("required_skills", Json.arr [Json.str "Python"]),
       ("experience_required", Json.int 5),
       ("tools", Json.arr [Json.str "Docker"]),
       ("soft_skills", Json.arr [])]) =
      Except.ok ⟨"Dev", ["Python"], 5, ["Docker"], []⟩ :=
  job_parse_roundTrip _ "Dev" ["Python"] 5 ["Docker"] []
    rfl rfl rfl rfl rfl

/-- If the validation cannot succeed, the response parse fails with a
`ParseValidationError` (the only failure the parse stage produces). -/
lemma parseFailure_of_validate_not_ok (v : Json)
    (h : ∀ jd, validateJobDetails v ≠ Except.ok jd) :
    isParseFailure (parseJobResponse v) = true := by
  cases hv : validateJobDetails v with
  | error m => simp [parseJobResponse, hv, Except.mapError, isParseFailure]
  | ok jd => exact absurd hv (h jd)

/-- C2: whenever any one of the five mandatory `JobDetails` fields is absent
from the decoded JSON object, the job-description response parse fails with
a `ParseValidationError` instead of producing a record. -/
theorem job_parse_missing_field_fails (fields : List (String × Json)) :
    (fields.lookup "job_title" = none →
      isParseFailure (parseJobResponse (Json.obj fields)) = true) ∧
    (fields.lookup "required_skills" = none →
      isParseFailure (parseJobResponse (Json.obj fields)) = true) ∧
    (fields.lookup "experience_required" = none →
      isParseFailure (parseJobResponse (Json.obj fields)) = true) ∧
    (fields.lookup "tools" = none →
      isParseFailure (parseJobResponse (Json.obj fields)) = true) ∧
    (fields.lookup "soft_skills" = none →
      isParseFailure (parseJobResponse (Json.obj fields)) = true) := by
  refine ⟨?_, ?_, ?_, ?_, ?_⟩ <;>
    · intro hnone
      apply parseFailure_of_validate_not_ok
      intro jd hok
      rw [validateJobDetails_ok_iff] at hok
      simp [reqStr, reqStrList, reqInt, hnone] at hok

/-- Witness for C2: an object with no fields at all is rejected. -/
theorem job_parse_missing_field_fails_witness :
    isParseFailure (parseJobResponse (Json.obj [])) = true :=
  (job_parse_missing_field_fails []).2.2.1 rfl

/-- C3: whenever the `experience_required` field is present but its decoded
value is not a JSON integer, the job-description response parse fails with a
`ParseValidationError`. -/
theorem job_parse_nonint_experience_fails (fields : List (String × Json))
    (v : Json) (hsome : fields.lookup "experience_required" = some v)
    (hne : ∀ n : Int, v ≠ Json.int n) :
    isParseFailure (parseJobResponse (Json.obj fields)) = true := by
  apply parseFailure_of_validate_not_ok
  intro jd hok
  rw [validateJobDetails_ok_iff] at hok
  have h3 := hok.2.2.1
  cases v <;> first
    | exact hne _ rfl
    | simp [reqInt, hsome] at h3

/-- Witness for C3: `experience_required` given as the string "five". -/
theorem job_parse_nonint_experience_fails_witness :
    isParseFailure (parseJobResponse
      (Json.obj [("experience_required", Json.str "five")])) = true :=
  job_parse_nonint_experience_fails _ (Json.str "five") rfl
    (fun _ h => Json.noConfusion h)

/-- C4 counterexample: an otherwise-valid object with the negative value -1
for `experience_required` is accepted and yields a record, so parsing does
not enforce non-negativity. -/
theorem job_parse_negative_experience_accepted :
    parseJobResponse (Json.obj
      [("job_title", Json.str "Dev"),
       ("required_skills", Json.arr []),
       ("experience_required", Json.int (-1)),
       ("tools", Json.arr []),
       ("soft_skills", Json.arr [])]) =
      Except.ok ⟨"Dev", [], -1, [], []⟩ := by
  rfl

/-- C4 amended: the parse constrains `experience_required` only to be an
integer; an otherwise-valid input whose `experience_required` is a negative
integer still parses to a record carrying that negative value. -/
theorem job_parse_negative_experience_roundTrip
    (fields : List (String × Json))
    (jt : String) (rs : List String) (er : Int) (ts ss : List String)
    (_hneg : er < 0)
    (h1 : fields.lookup "job_title" = some (Json.str jt))
    (h2 : fields.lookup "required_skills" = some (Json.arr (rs.map Json.str)))
    (h3 : fields.lookup "experience_required" = some (Json.int er))
    (h4 : fields.lookup "tools" = some (Json.arr (ts.map Json.str)))
    (h5 : fields.lookup "soft_skills" = some (Json.arr (ss.map Json.str))) :
    parseJobResponse (Json.obj fields) = Except.ok ⟨jt, rs, er, ts, ss⟩ :=
  parseJobResponse_roundTrip fields jt rs er ts ss h1 h2 h3 h4 h5

/-- Witness for the amended C4 at the concrete value -3. -/
theorem job_parse_negative_experience_roundTrip_witness :
    parseJobResponse (Json.obj
      [("job_title", Json.str "QA"),
       ("required_skills", Json.arr [Json.str "Python"]),
       ("experience_required", Json.int (-3)),
       ("tools", Json.arr []),
       ("soft_skills", Json.arr [Json.str "Teamwork"])]) =
      Except.ok ⟨"QA", ["Python"], -3, [], ["Teamwork"]⟩ :=
  job_parse_negative_experience_roundTrip _ "QA" ["Python"] (-3) []
    ["Teamwork"] (by decide) rfl rfl rfl rfl rfl

/-- Sampling temperature passed to the generation service; the source's
float literals 0.3 / 0.5 / 0.7 are exact decimals, modelled as rationals. -/
abbrev Temperature := ℚ

/-- The abstract generation capability of section 6 of the design:
`generate(prompt, temperature) -> text`, failing with a service fault. -/
abbrev Service := Temperature → String → Except String String

/-- Abstract JSON-text decoding, the `json.loads` stage of the library's
output parser (library code outside `src/`): a text either decodes to a
JSON value or is rejected. -/
abbrev Decoder := String → Except String Json

/-- Python's `", ".join`. -/
def joinComma (l : List String) : String := String.intercalate ", " l

/-- The job-analysis prompt template (source lines 57-68), filled with the
format instructions (partial variable) and the job description. -/
def jobAnalysisPrompt (format_instructions job_description : String) : String :=
  "Analyze the following job description and extract structured information.\n\nJob Description:\n"
    ++ job_description ++ "\n\n" ++ format_instructions
    ++ "\n\nProvide the extracted information in the specified JSON format."

/-- The resume-suggestion prompt template (source lines 102-119), filled
with the format instructions and the per-call values. -/
def suggestionPromptFill (format_instructions job_details required_skills : String)
    (experience_required : Int) (tools current_resume : String) : String :=
  "Based on the job requirements and current resume, generate improvement suggestions.\n\nJob Requirements:\n- Title: "
    ++ job_details ++ "\n- Skills needed: " ++ required_skills
    ++ "\n- Experience: " ++ toString experience_required ++ " years\n- Tools: "
    ++ tools ++ "\n\nCurrent Resume:\n" ++ current_resume ++ "\n\n"
    ++ format_instructions
    ++ "\n\nProvide structured suggestions to improve the resume for this job position."

/-- The prompt the suggestion generator renders for a `JobDetails` record
(the fill values of source lines 137-143: title, comma-joined skills, the
experience integer, comma-joined tools, and the resume text). -/
def renderedSuggestionPrompt (format_instructions : String) (jd : JobDetails)
    (current_resume : String) : String :=
  suggestionPromptFill format_instructions jd.job_title
    (joinComma jd.required_skills) jd.experience_required
    (joinComma jd.tools) current_resume

/-- The cover-letter prompt template (source lines 162-191). -/
def coverLetterPrompt (candidate_name job_title company_name
    key_achievements job_requirements : String) : String :=
  "Write a professional cover letter for the following position:\n\nCandidate Name: "
    ++ candidate_name ++ "\nJob Title: " ++ job_title ++ "\nCompany: "
    ++ company_name ++ "\n\nKey Achievements:\n" ++ key_achievements
    ++ "\n\nJob Requirements:\n" ++ job_requirements
    ++ "\n\nInstructions:\n- Write a compelling cover letter (300-400 words)\n- Highlight relevant experience\n- Match key requirements from job description\n- Use professional tone\n- Include specific examples from achievements\n- Output only the cover letter text, no JSON or formatting markers\n\nCover Letter:"

/-- Extraction temperature (source line 49). -/
def JobDescriptionAnalyzer.temperature : Temperature := 0.3

/-- `JobDescriptionAnalyzer.analyze` (source lines 70-82): prompt, invoke
the service, then parse the response against the `JobDetails` schema.  A
service fault surfaces as `GenerationError`; a decode or validation failure
as `ParseValidationError`. -/
def JobDescriptionAnalyzer.analyze (dec : Decoder) (svc : Service)
    (format_instructions job_description : String) :
    Except AppError JobDetails :=
  match svc JobDescriptionAnalyzer.temperature
      (jobAnalysisPrompt format_instructions job_description) with
  | Except.error e => Except.error (AppError.generationError e)
  | Except.ok text =>
    match dec text with
    | Except.error m => Except.error (AppError.parseValidationError m)
    | Except.ok v => parseJobResponse v

/-- Suggestion temperature (source line 94). -/
def ResumeSuggestionGenerator.temperature : Temperature := 0.5

/-- `ResumeSuggestionGenerator.generate_suggestions` (source lines
121-144): render the prompt from the record and resume, invoke the service,
parse against the `ResumeSuggestions` schema. -/
def ResumeSuggestionGenerator.generate_suggestions (dec : Decoder)
    (svc : Service) (format_instructions : String) (jd : JobDetails)
    (current_resume : String) : Except AppError ResumeSuggestions :=
  match svc ResumeSuggestionGenerator.temperature
      (renderedSuggestionPrompt format_instructions jd current_resume) with
  | Except.error e => Except.error (AppError.generationError e)
  | Except.ok text =>
    match dec text with
    | Except.error m => Except.error (AppError.parseValidationError m)
    | Except.ok v => parseSuggestionResponse v

/-- Cover-letter temperature (source line 156). -/
def CoverLetterGenerator.temperature : Temperature := 0.7

/-- `CoverLetterGenerator.generate` (source lines 193-222): render the
prompt, invoke the service, and return the text verbatim (the string output
parser is the identity on text). -/
def CoverLetterGenerator.generate (svc : Service) (candidate_name job_title
    company_name key_achievements job_requirements : String) :
    Except AppError String :=
  match svc CoverLetterGenerator.temperature
      (coverLetterPrompt candidate_name job_title company_name
        key_achievements job_requirements) with
  | Except.error e => Except.error (AppError.generationError e)
  | Except.ok text => Except.ok text

/-- A decoder that rejects every text. -/
def errDecoder : Decoder := fun _ => Except.error "invalid json"

/-- A service that always faults. -/
def downService : Service := fun _ _ => Except.error "service down"

/-- A service that always answers with the text "ok". -/
def constOkService : Service := fun _ _ => Except.ok "ok"

/-- C5: when the generation service faults, each of the three component
operations propagates the fault to its caller as a `GenerationError`, for
every input; none swallows it. -/
theorem service_fault_propagates (e : String) (dec : Decoder) (svc : Service)
    (hfault : ∀ t p, svc t p = Except.error e) :
    (∀ format_instructions job_description,
      JobDescriptionAnalyzer.analyze dec svc format_instructions
          job_description =
        Except.error (AppError.generationError e)) ∧
    (∀ format_instructions jd current_resume,
      ResumeSuggestionGenerator.generate_suggestions dec svc
          format_instructions jd current_resume =
        Except.error (AppError.generationError e)) ∧
    (∀ candidate_name job_title company_name key_achievements
        job_requirements,
      CoverLetterGenerator.generate svc candidate_name job_title company_name
          key_achievements job_requirements =
        Except.error (AppError.generationError e)) := by
  refine ⟨fun fi jdesc => ?_, fun fi jd r => ?_, fun n t c a q => ?_⟩ <;>
    simp [JobDescriptionAnalyzer.analyze,
      ResumeSuggestionGenerator.generate_suggestions,
      CoverLetterGenerator.generate, hfault]

/-- Witness for C5: the always-faulting service propagates from the
analyzer. -/
theorem service_fault_propagates_witness :
    JobDescriptionAnalyzer.analyze errDecoder downService "fi" "desc" =
      Except.error (AppError.generationError "service down") :=
  (service_fault_propagates "service down" errDecoder downService
    (fun _ _ => rfl)).1 "fi" "desc"

/-- A probe service that faults with a message naming the temperature it
was invoked at, making the per-feature temperature observable. -/
def probeService : Service := fun t _ =>
  Except.error (if t = 3/10 then "temperature 3/10"
    else if t = 1/2 then "temperature 1/2"
    else if t = 7/10 then "temperature 7/10"
    else "unexpected temperature")

/-- C8: the components invoke the generation service at the fixed
per-feature temperatures 0.3, 0.5 and 0.7.  The three constants equal those
values; the probe service observes exactly those temperatures on every
invocation; and each component's result depends on the service only through
its behaviour at that component's temperature. -/
theorem per_feature_temperatures :
    (JobDescriptionAnalyzer.temperature = 3/10 ∧
     ResumeSuggestionGenerator.temperature = 1/2 ∧
     CoverLetterGenerator.temperature = 7/10) ∧
    (∀ dec fi jdesc,
      JobDescriptionAnalyzer.analyze dec probeService fi jdesc =
        Except.error (AppError.generationError "temperature 3/10")) ∧
    (∀ dec fi jd r,
      ResumeSuggestionGenerator.generate_suggestions dec probeService fi jd r =
        Except.error (AppError.generationError "temperature 1/2")) ∧
    (∀ n t c a q,
      CoverLetterGenerator.generate probeService n t c a q =
        Except.error (AppError.generationError "temperature 7/10")) ∧
    (∀ dec s₁ s₂ fi jdesc,
      (∀ p, s₁ JobDescriptionAnalyzer.temperature p =
            s₂ JobDescriptionAnalyzer.temperature p) →
      JobDescriptionAnalyzer.analyze dec s₁ fi jdesc =
        JobDescriptionAnalyzer.analyze dec s₂ fi jdesc) ∧
    (∀ dec s₁ s₂ fi jd r,
      (∀ p, s₁ ResumeSuggestionGenerator.temperature p =
            s₂ ResumeSuggestionGenerator.temperature p) →
      ResumeSuggestionGenerator.generate_suggestions dec s₁ fi jd r =
        ResumeSuggestionGenerator.generate_suggestions dec s₂ fi jd r) ∧
    (∀ s₁ s₂ n t c a q,
      (∀ p, s₁ CoverLetterGenerator.temperature p =
            s₂ CoverLetterGenerator.temperature p) →
      CoverLetterGenerator.generate s₁ n t c a q =
        CoverLetterGenerator.generate s₂ n t c a q) := by
  refine ⟨⟨by norm_num [JobDescriptionAnalyzer.temperature],
      by norm_num [ResumeSuggestionGenerator.temperature],
      by norm_num [CoverLetterGenerator.temperature]⟩,
    fun dec fi jdesc => ?_, fun dec fi jd r => ?_, fun n t c a q => ?_,
    fun dec s₁ s₂ fi jdesc h => ?_, fun dec s₁ s₂ fi jd r h => ?_,
    fun s₁ s₂ n t c a q h => ?_⟩
  · simp only [JobDescriptionAnalyzer.analyze, probeService]
    norm_num [JobDescriptionAnalyzer.temperature]
  · simp only [ResumeSuggestionGenerator.generate_suggestions, probeService]
    norm_num [ResumeSuggestionGenerator.temperature]
  · simp only [CoverLetterGenerator.generate, probeService]
    norm_num [CoverLetterGenerator.temperature]
  · simp only [JobDescriptionAnalyzer.analyze]
    rw [h]
  · simp only [ResumeSuggestionGenerator.generate_suggestions]
    rw [h]
  · simp only [CoverLetterGenerator.generate]
    rw [h]

/-- A service that answers "ok" at the extraction temperature and faults at
every other temperature. -/
def extractionOnlyService : Service := fun t _ =>
  if t = JobDescriptionAnalyzer.temperature then Except.ok "ok"
  else Except.error "other temperature"

/-- Witness for C8: the analyzer cannot tell the always-ok service from one
that only answers at the extraction temperature. -/
theorem per_feature_temperatures_witness :
    JobDescriptionAnalyzer.analyze errDecoder constOkService "fi" "desc" =
      JobDescriptionAnalyzer.analyze errDecoder extractionOnlyService "fi"
        "desc" :=
  per_feature_temperatures.2.2.2.2.1 errDecoder constOkService
    extractionOnlyService "fi" "desc"
    (fun p => by simp [constOkService, extractionOnlyService])

/-- C7: for every input with non-empty achievements and requirements, the
cover-letter generator never fails with a validation error, and it returns
the generation service's text verbatim. -/
theorem cover_letter_no_validation_error (svc : Service)
    (candidate_name job_title company_name key_achievements
      job_requirements : String)
    (_hach : key_achievements ≠ "") (_hreq : job_requirements ≠ "") :
    (isParseFailure (CoverLetterGenerator.generate svc candidate_name
        job_title company_name key_achievements job_requirements) = false) ∧
    (∀ text,
      svc CoverLetterGenerator.temperature
          (coverLetterPrompt candidate_name job_title company_name
            key_achievements job_requirements) = Except.ok text →
      CoverLetterGenerator.generate svc candidate_name job_title company_name
          key_achievements job_requirements = Except.ok text) := by
  constructor
  · cases h : svc CoverLetterGenerator.temperature
        (coverLetterPrompt candidate_name job_title company_name
          key_achievements job_requirements) <;>
      simp [CoverLetterGenerator.generate, h, isParseFailure]
  · intro text h
    simp [CoverLetterGenerator.generate, h]

/-- Witness for C7: the always-ok service's text comes back verbatim. -/
theorem cover_letter_no_validation_error_witness :
    CoverLetterGenerator.generate constOkService "John Doe"
      "Senior Python Developer" "Tech Corp" "led a team" "Python" =
      Except.ok "ok" :=
  (cover_letter_no_validation_error constOkService "John Doe"
    "Senior Python Developer" "Tech Corp" "led a team" "Python"
    (by decide) (by decide)).2 "ok" rfl

/-- Substring containment, stated on the character lists of the strings. -/
def strContains (s pat : String) : Prop :=
  ∃ a b, s.data = a ++ pat.data ++ b

/-- Every string contains itself. -/
lemma strContains_self (s : String) : strContains s s := ⟨[], [], by simp⟩

/-- Containment is preserved by appending on the right. -/
lemma strContains_append_left {a pat : String} (b : String)
    (h : strContains a pat) : strContains (a ++ b) pat := by
  obtain ⟨x, y, hx⟩ := h
  exact ⟨x, y ++ b.data, by simp [hx]⟩

/-- Containment is preserved by appending on the left. -/
lemma strContains_append_right {b pat : String} (a : String)
    (h : strContains b pat) : strContains (a ++ b) pat := by
  obtain ⟨x, y, hx⟩ := h
  exact ⟨a.data ++ x, y, by simp [hx]⟩

/-- The fixed record of the prompt-rendering property, with an arbitrary
`soft_skills` component. -/
def fixedJobDetails (ss : List String) : JobDetails :=
  ⟨"Senior Python Developer", ["Python", "PostgreSQL"], 5, ["Docker"], ss⟩

/-- C6: the suggestion prompt rendered for the fixed record (title "Senior
Python Developer", skills Python/PostgreSQL, experience 5, tools Docker)
contains the literal substrings "Senior Python Developer",
"Python, PostgreSQL", "5" and "Docker", whatever the format instructions,
resume text and soft skills are. -/
theorem suggestion_prompt_contains_fields (format_instructions
    current_resume : String) (ss : List String) :
    strContains (renderedSuggestionPrompt format_instructions
      (fixedJobDetails ss) current_resume) "Senior Python Developer" ∧
    strContains (renderedSuggestionPrompt format_instructions
      (fixedJobDetails ss) current_resume) "Python, PostgreSQL" ∧
    strContains (renderedSuggestionPrompt format_instructions
      (fixedJobDetails ss) current_resume) "5" ∧
    strContains (renderedSuggestionPrompt format_instructions
      (fixedJobDetails ss) current_resume) "Docker" := by
  refine ⟨?_, ?_, ?_, ?_⟩ <;> simp only [renderedSuggestionPrompt,
    suggestionPromptFill]
  · exact strContains_append_left _ (strContains_append_left _
      (strContains_append_left _ (strContains_append_left _
        (strContains_append_left _ (strContains_append_left _
          (strContains_append_left _ (strContains_append_left _
            (strContains_append_left _ (strContains_append_left _
              (strContains_append_left _ (strContains_append_right _
                (strContains_self _))))))))))))
  · exact strContains_append_left _ (strContains_append_left _
      (strContains_append_left _ (strContains_append_left _
        (strContains_append_left _ (strContains_append_left _
          (strContains_append_left _ (strContains_append_left _
            (strContains_append_left _ (strContains_append_right _
              (strContains_self _))))))))))
  · exact strContains_append_left _ (strContains_append_left _
      (strContains_append_left _ (strContains_append_left _
        (strContains_append_left _ (strContains_append_left _
          (strContains_append_left _ (strContains_append_right _
            (strContains_self _))))))))
  · exact strContains_append_left _ (strContains_append_left _
      (strContains_append_left _ (strContains_append_left _
        (strContains_append_left _ (strContains_append_right _
          (strContains_self _))))))

/-- C10: the rendered suggestion prompt, and hence the suggestion result
for any fixed decoder and service, does not depend on the `soft_skills`
component: two records that agree on the other four fields produce the same
prompt and the same result. -/
theorem suggestion_prompt_ignores_soft_skills (dec : Decoder)
    (svc : Service) (format_instructions current_resume : String)
    (jd₁ jd₂ : JobDetails)
    (ht : jd₁.job_title = jd₂.job_title)
    (hs : jd₁.required_skills = jd₂.required_skills)
    (he : jd₁.experience_required = jd₂.experience_required)
    (hl : jd₁.tools = jd₂.tools) :
    renderedSuggestionPrompt format_instructions jd₁ current_resume =
      renderedSuggestionPrompt format_instructions jd₂ current_resume ∧
    ResumeSuggestionGenerator.generate_suggestions dec svc
        format_instructions jd₁ current_resume =
      ResumeSuggestionGenerator.generate_suggestions dec svc
        format_instructions jd₂ current_resume := by
  have hp : renderedSuggestionPrompt format_instructions jd₁ current_resume =
      renderedSuggestionPrompt format_instructions jd₂ current_resume := by
    simp [renderedSuggestionPrompt, suggestionPromptFill, ht, hs, he, hl]
  exact ⟨hp,
    by simp only [ResumeSuggestionGenerator.generate_suggestions, hp]⟩

/-- Witness for C10 at two records that differ only in `soft_skills`. -/
theorem suggestion_prompt_ignores_soft_skills_witness :
    ResumeSuggestionGenerator.generate_suggestions errDecoder constOkService
        "fi" ⟨"Dev", ["Python"], 2, [], ["Teamwork"]⟩ "resume" =
      ResumeSuggestionGenerator.generate_suggestions errDecoder
        constOkService "fi" ⟨"Dev", ["Python"], 2, [], []⟩ "resume" :=
  (suggestion_prompt_ignores_soft_skills errDecoder constOkService "fi"
    "resume" ⟨"Dev", ["Python"], 2, [], ["Teamwork"]⟩
    ⟨"Dev", ["Python"], 2, [], []⟩ rfl rfl rfl rfl).2

/-- The hardcoded sample job description of the driver (source lines
237-260), verbatim with its indentation. -/
def sampleJobDescription : String := "
    Senior Python Developer
    
    We are looking for a Senior Python Developer with 5+ years of experience.
    
    Required Skills:
    - Python (Django, FastAPI, Flask)
    - PostgreSQL and Redis
    - Docker and Kubernetes
    - AWS (EC2, S3, Lambda)
    - RESTful API design
    
    Responsibilities:
    - Design and develop scalable web applications
    - Lead code reviews and mentor junior developers
    - Optimize database performance
    - Collaborate with DevOps team
    
    Soft Skills:
    - Strong communication
    - Team player
    - Problem-solving
    - Leadership experience
    "

/-- The hardcoded sample resume of the driver (source lines 263-282). -/
def sampleResume : String := "
    JOHN DOE
    john.doe@email.com | linkedin.com/in/johndoe
    
    EXPERIENCE:
    Python Developer at Tech Corp (3 years)
    - Developed REST APIs using Flask
    - Worked with MySQL databases
    - Basic Docker experience
    
    Junior Developer at Startup (2 years)
    - Built web applications
    - Fixed bugs and optimized code
    
    SKILLS:
    - Python, JavaScript
    - Flask, Django
    - MySQL
    - Git
    "

/-- The hardcoded key achievements passed to the cover-letter generator
(source lines 339-344). -/
def sampleKeyAchievements : String := "
            - Led development of 3 REST APIs serving 100K+ users
            - Optimized database queries reducing response time by 40%
            - Mentored 2 junior developers
            - Implemented CI/CD pipelines using Docker
            "

/-- The hardcoded job requirements passed to the cover-letter generator
(source line 345). -/
def sampleJobRequirements : String :=
  "Python, Django, FastAPI, PostgreSQL, Redis, Docker, AWS"

/-- Observable control flow of the demonstration driver: which of the three
pipelines ran, and whether the success banner was printed. -/
structure MainTrace where
  ran1 : Bool
  ran2 : Bool
  ran3 : Bool
  successBanner : Bool
deriving Repr, DecidableEq

/-- The demonstration driver (`main`, source lines 229-359): run the three
pipelines in sequence against the hardcoded sample inputs; on a caught
failure print the error and return early; after all three, print the
success banner. -/
def mainDriver (dec : Decoder) (svc : Service)
    (fi_job fi_suggestion : String) : MainTrace :=
  match JobDescriptionAnalyzer.analyze dec svc fi_job
      sampleJobDescription with
  | Except.error _ => ⟨true, false, false, false⟩
  | Except.ok job_details =>
    match ResumeSuggestionGenerator.generate_suggestions dec svc
        fi_suggestion job_details sampleResume with
    | Except.error _ => ⟨true, true, false, false⟩
    | Except.ok _ =>
      match CoverLetterGenerator.generate svc "John Doe"
          "Senior Python Developer" "Tech Corp" sampleKeyAchievements
          sampleJobRequirements with
      | Except.error _ => ⟨true, true, true, false⟩
      | Except.ok _ => ⟨true, true, true, true⟩

/-- C9: the driver runs the pipelines in sequence, returns early on a
failure (a later pipeline runs exactly when every earlier one succeeded),
and prints the success banner exactly when all three pipelines succeed. -/
theorem main_early_return_success_banner (dec : Decoder) (svc : Service)
    (fi_job fi_suggestion : String) :
    ((mainDriver dec svc fi_job fi_suggestion).successBanner = true ↔
      ∃ jd sg cl,
        JobDescriptionAnalyzer.analyze dec svc fi_job sampleJobDescription =
          Except.ok jd ∧
        ResumeSuggestionGenerator.generate_suggestions dec svc fi_suggestion
          jd sampleResume = Except.ok sg ∧
        CoverLetterGenerator.generate svc "John Doe"
          "Senior Python Developer" "Tech Corp" sampleKeyAchievements
          sampleJobRequirements = Except.ok cl) ∧
    ((mainDriver dec svc fi_job fi_suggestion).ran2 = true ↔
      ∃ jd,
        JobDescriptionAnalyzer.analyze dec svc fi_job sampleJobDescription =
          Except.ok jd) ∧
    ((mainDriver dec svc fi_job fi_suggestion).ran3 = true ↔
      ∃ jd sg,
        JobDescriptionAnalyzer.analyze dec svc fi_job sampleJobDescription =
          Except.ok jd ∧
        ResumeSuggestionGenerator.generate_suggestions dec svc fi_suggestion
          jd sampleResume = Except.ok sg) ∧
    (mainDriver dec svc fi_job fi_suggestion).ran1 = true := by
  cases h1 : JobDescriptionAnalyzer.analyze dec svc fi_job
      sampleJobDescription with
  | error e => simp [mainDriver, h1]
  | ok jd =>
    cases h2 : ResumeSuggestionGenerator.generate_suggestions dec svc
        fi_suggestion jd sampleResume with
    | error e2 => simp [mainDriver, h1, h2]
    | ok sg =>
      cases h3 : CoverLetterGenerator.generate svc "John Doe"
          "Senior Python Developer" "Tech Corp" sampleKeyAchievements
          sampleJobRequirements with
      | error e3 => simp [mainDriver, h1, h2, h3]
      | ok cl => simp [mainDriver, h1, h2, h3]
